import Mathlib

/-!
# Verification of the download-task orchestration core (`app.py`)

A shallow embedding of the task-tracking subsystem of the backend service:
the task data model, the `ProgressHook` callback, the background runner
`run_download_task` (its state sequencing, post-worker consistency check and
exception handlers), the submit route `start_download_route`, the SSE
generator of `stream_progress_route`, and the containment check of
`get_file`.

Numeric progress values are modelled over `ℚ` (Python floats are modelled as
exact rationals; binary floating-point representation error is not
modelled).  Python's `round(x, 1)` rounds half to even on the exact value.
Python dictionaries are modelled as records: every task record is seeded
with all five keys by `start_download_route`, so `dict.get` chains collapse
to field access, with `Option` marking nullable fields and optional payload
keys.
-/

namespace Moro

/-- Task status values actually stored by `app.py` (string literals in the
source: 'pending', 'fetching_info', 'preparing_download', 'downloading',
'finished', 'error'). -/
inductive Status where
  | pending
  | fetching_info
  | preparing_download
  | downloading
  | finished
  | error
deriving DecidableEq, Repr

/-- A status is terminal when it is in `['finished', 'error']`
(`app.py` line 54, 168, 265). -/
def Status.isTerminal : Status → Bool
  | .finished => true
  | .error => true
  | _ => false

/-- The `progress` sub-dictionary of a task
(seeded at `app.py` line 221, rewritten by the hook). -/
structure Progress where
  percentage : ℚ
  speed : String
  eta : String
  total_bytes : Nat
  total_bytes_string : String
  downloaded_bytes : Nat
deriving DecidableEq, Repr

/-- One entry of `download_tasks` (`app.py` lines 219-223). -/
structure Task where
  status : Status
  progress : Progress
  filename : Option String
  download_url : Option String
  error_message : Option String
deriving DecidableEq, Repr

/-- The initial task record seeded by `start_download_route`
(`app.py` lines 219-223). -/
def initialTask : Task :=
  { status := .pending
  , progress :=
      { percentage := 0, speed := "", eta := "", total_bytes := 0
      , total_bytes_string := "", downloaded_bytes := 0 }
  , filename := none
  , download_url := none
  , error_message := none }

/-- Python truthiness of an optional string (`None` and `""` are falsy). -/
def strTruthy : Option String → Bool
  | none => false
  | some s => s ≠ ""

/-- Python `a or b` where `a` is an optional string and `b` an optional
string: returns `a` when truthy, otherwise `b` verbatim. -/
def orFalsyStr (a b : Option String) : Option String :=
  if strTruthy a then a else b

/-- Python `a or b` where `a` is an optional integer (`None` and `0` are
falsy) and `b` a plain integer, as in
`d.get('total_bytes') or d.get('total_bytes_estimate') or 0`. -/
def orFalsyNat (a : Option Nat) (b : Nat) : Nat :=
  match a with
  | none => b
  | some n => if n = 0 then b else n

/-- Split a character list on `/` (the pieces between separators,
including empty pieces). -/
def splitOnSlash (cs : List Char) : List (List Char) :=
  cs.foldr
    (fun c acc =>
      if c = '/' then [] :: acc
      else
        match acc with
        | [] => [[c]]
        | g :: gs => (c :: g) :: gs)
    [[]]

/-- `os.path.basename`: the part after the last `/`. -/
def basename (s : String) : String :=
  ⟨(splitOnSlash s.data).getLastD []⟩

/-- Python's `round` to an integer on an exact rational: nearest integer,
ties to even. -/
def roundHalfEven (q : ℚ) : ℤ :=
  if q - ⌊q⌋ < 1/2 then ⌊q⌋
  else if 1/2 < q - ⌊q⌋ then ⌊q⌋ + 1
  else if ⌊q⌋ % 2 = 0 then ⌊q⌋ else ⌊q⌋ + 1

/-- Python's `round(x, 1)` on an exact rational. -/
def round1 (q : ℚ) : ℚ :=
  (roundHalfEven (q * 10) : ℚ) / 10

/-- The dictionary `d` passed by yt-dlp to a progress hook, restricted to
the keys `ProgressHook.__call__` reads.  `none` models an absent key
(every read except `d['status']` uses `.get`). -/
structure HookPayload where
  status : Option String
  total_bytes : Option Nat
  total_bytes_estimate : Option Nat
  downloaded_bytes : Option Nat
  speed_str : Option String
  eta_str : Option String
  total_bytes_str : Option String
  filename : Option String
deriving DecidableEq, Repr

/-- The error message stored by the hook's `'error'` branch
(`app.py` line 87). -/
def hookErrorMessage : String := "فشل خطاف التقدم في yt-dlp."

/-- The percentage value the `'downloading'` branch computes from a payload
before rounding: `downloaded_bytes / total_bytes * 100` when the total is
positive, else `0` (`app.py` lines 63-65). -/
def payloadRawPct (d : HookPayload) : ℚ :=
  let total := orFalsyNat d.total_bytes (orFalsyNat d.total_bytes_estimate 0)
  let downloaded := d.downloaded_bytes.getD 0
  if 0 < total then (downloaded : ℚ) / (total : ℚ) * 100 else 0

/-- `ProgressHook.__call__` on a present task record (`app.py` lines
52-93): returns `.error ()` when the uncaught `KeyError` from
`d['status']` propagates back into yt-dlp, else the updated record.
The body has no `try`/`except` of its own. -/
def hookStep (t : Task) (d : HookPayload) : Except Unit Task :=
  if t.status.isTerminal then .ok t
  else
    match d.status with
    | none => .error ()
    | some s =>
      if s = "downloading" then
        let total := orFalsyNat d.total_bytes (orFalsyNat d.total_bytes_estimate 0)
        let downloaded := d.downloaded_bytes.getD 0
        let pct : ℚ := if 0 < total then (downloaded : ℚ) / (total : ℚ) * 100 else 0
        .ok { t with
              status := .downloading
            , progress :=
                { percentage := round1 pct
                , speed := d.speed_str.getD "N/A"
                , eta := d.eta_str.getD "N/A"
                , total_bytes := total
                , total_bytes_string := d.total_bytes_str.getD "N/A"
                , downloaded_bytes := downloaded } }
      else if s = "finished" then
        let final := orFalsyStr d.filename t.filename
        .ok { t with
              status := .finished
            , filename := final
            , download_url :=
                if strTruthy final then
                  some ("/api/files/" ++ basename (final.getD ""))
                else t.download_url
            , progress := { t.progress with percentage := 100 } }
      else if s = "error" then
        .ok { t with status := .error, error_message := some hookErrorMessage }
      else .ok t

/-- `ProgressHook.__call__` including the missing-task guard at `app.py`
line 50: when the task id is not in `download_tasks` the hook returns
before touching `d['status']`. -/
def hookCall (store : Option Task) (d : HookPayload) : Except Unit (Option Task) :=
  match store with
  | none => .ok none
  | some t => (hookStep t d).map some

/-- The task record after a hook invocation, when it did not raise
(identity on a raise, which never stores anything). -/
def hookRun (t : Task) (d : HookPayload) : Task :=
  match hookStep t d with
  | .ok t2 => t2
  | .error _ => t

/-- The error message of the post-worker consistency check's failure branch
(`app.py` line 180). -/
def checkFailedMessage : String := "فشل التحقق من الملف بعد انتهاء العملية."

/-- The post-worker consistency check of `run_download_task` (`app.py`
lines 167-181), on a present task record.  `fileExists` models
`target_filepath and os.path.exists(target_filepath)`;
`target_filename` is the name prepared at line 115. -/
def consistencyCheck (t : Task) (fileExists : Bool) (target_filename : String) : Task :=
  if t.status.isTerminal then t
  else if fileExists then
    { t with
      status := .finished
    , filename := if strTruthy t.filename then t.filename else some target_filename
    , download_url :=
        if strTruthy t.download_url then t.download_url
        else some ("/api/files/" ++ basename target_filename)
    , progress := { t.progress with percentage := 100 } }
  else
    { t with status := .error, error_message := some checkFailedMessage }

/-- Substring test used to classify `DownloadError` messages; for a
non-empty pattern, `s.splitOn pat` has more than one piece exactly when
`pat` occurs in `s` (Python `pat in s`). -/
def strContains (s pat : String) : Bool :=
  (s.splitOn pat).length ≠ 1

/-- The message classification of the `yt_dlp.utils.DownloadError` handler
(`app.py` lines 189-194). -/
def classifyDownloadError (err_str : String) : String :=
  if strContains err_str "ffmpeg was not found" ∨ strContains err_str "ffmpeg is not installed" then
    "خطأ: تأكد من تثبيت ffmpeg وإضافته للـ PATH."
  else if strContains err_str "Unsupported URL" then "الرابط غير مدعوم."
  else if strContains err_str "Video unavailable" then "الفيديو غير متاح."
  else if strContains err_str "HTTP Error 429" then
    "خطأ: تم حظر الطلب مؤقتًا (Too Many Requests)."
  else "خطأ تحميل: " ++ (err_str.take 150) ++ "..."

/-- The `except yt_dlp.utils.DownloadError` handler of `run_download_task`
(`app.py` lines 183-195), on a present task record: it sets
`status = 'error'` and the classified message with no terminal-state
guard. -/
def downloadErrorHandler (t : Task) (err_str : String) : Task :=
  { t with status := .error, error_message := some (classifyDownloadError err_str) }

/-- The generic `except Exception` handler of `run_download_task`
(`app.py` lines 196-201), on a present task record. -/
def unexpectedErrorHandler (t : Task) : Task :=
  { t with status := .error, error_message := some "حدث خطأ غير متوقع في الخادم." }

/-! ## The submit route (`start_download_route`, `app.py` lines 208-228) -/

/-- The JSON body of a `POST /api/download` request, restricted to the two
keys the route reads.  `none` models an absent key. -/
structure SubmitBody where
  video_url : Option String
  format : Option String
deriving DecidableEq, Repr

/-- The response of `start_download_route`: HTTP status code and the JSON
fields it writes. -/
structure SubmitResponse where
  code : Nat
  success : Bool
  task_id : Option String
  error : Option String
deriving DecidableEq, Repr

/-- The task store `download_tasks`, as an association list of task id to
record (insertion only; the source never deletes entries). -/
def TaskStore := List (String × Task)

/-- `start_download_route` (`app.py` lines 208-228).  `body = none` models
a request whose `request.get_json()` is falsy (absent or empty body);
`fresh_id` is the `uuid.uuid4().hex` allocated for this request.  Returns
the HTTP response and the store after the request.  (Thread start is
fire-and-forget and does not touch the store.) -/
def start_download_route (body : Option SubmitBody) (fresh_id : String)
    (store : TaskStore) : SubmitResponse × TaskStore :=
  match body with
  | none =>
      ({ code := 400, success := false, task_id := none
       , error := some "بيانات الطلب مفقودة." }, store)
  | some b =>
      if ¬ strTruthy b.video_url ∨ ¬ strTruthy b.format then
        ({ code := 400, success := false, task_id := none
         , error := some "معلومات الفيديو أو الصيغة مفقودة." }, store)
      else
        ({ code := 200, success := true, task_id := some fresh_id, error := none }
        , (fresh_id, initialTask) :: store)

/-! ## The SSE stream (`stream_progress_route`, `app.py` lines 232-279)

The generator loop polls the store every 0.5s; we model one loop iteration
per element of a list of observed snapshots (`none` = task id absent at
that poll).  The serialized form `json.dumps(task_state_copy)` is modelled
by the record itself: for these records `json.dumps` is deterministic
(insertion-ordered keys) and injective, so two polls serialize equally
exactly when the records are equal, and serialization never raises
`TypeError` (all values are JSON-encodable). -/

/-- One event yielded by the generator: the not-found/serialization
`event: error` message, or a `data:` event carrying a task snapshot. -/
inductive StreamEvent where
  | notFound
  | data (t : Task)
deriving DecidableEq, Repr

/-- The generator body of `stream_progress_route` (`app.py` lines
235-277): `last` is `last_sent_state_str` (`none` before anything was
sent).  Each iteration: read a snapshot; absent → yield one not-found
event and break; yield the snapshot if it differs from the last sent one;
break if its status is terminal; else sleep and loop. -/
def event_stream : List (Option Task) → Option Task → List StreamEvent
  | [], _ => []
  | none :: _, _ => [.notFound]
  | some t :: rest, last =>
      if last = some t then
        if t.status.isTerminal then [] else event_stream rest last
      else
        .data t :: (if t.status.isTerminal then [] else event_stream rest (some t))

/-! ## The file route's containment check (`get_file`, `app.py` lines
283-304)

Paths are POSIX strings.  `os.path.abspath` on an absolute input
normalizes `.` and `..` segments; `os.path.join(dir, filename)` discards
`dir` when `filename` is absolute. -/

/-- The non-empty segments of a path (as character lists). -/
def pathSegs (cs : List Char) : List (List Char) :=
  (splitOnSlash cs).filter (fun seg => seg ≠ [])

/-- POSIX path normalization over segments: `.` is dropped, `..` pops the
previous segment (at the root, `..` stays at the root). -/
def normSegs (segs : List (List Char)) : List (List Char) :=
  segs.foldl
    (fun acc seg =>
      if seg = ['.'] then acc
      else if seg = ['.', '.'] then acc.dropLast
      else acc ++ [seg])
    []

/-- `os.path.abspath` on an already-absolute POSIX path, as its character
list. -/
def abspathChars (cs : List Char) : List Char :=
  '/' :: List.intercalate ['/'] (normSegs (pathSegs cs))

/-- `os.path.join(dir, filename)` for an absolute `dir` without a
trailing separator: an absolute `filename` discards `dir`. -/
def joinPath (dir filename : String) : List Char :=
  if filename.data.head? = some '/' then filename.data
  else dir.data ++ '/' :: filename.data

/-- The `safe_path` computed at `app.py` line 288, as a character list. -/
def safe_path (dir filename : String) : List Char :=
  abspathChars (joinPath dir filename)

/-- The containment check at `app.py` line 289:
`safe_path.startswith(os.path.abspath(DOWNLOAD_FOLDER))` — a plain
character-prefix test with no trailing separator.  When it returns
`false` the route calls `abort(404)` (which the surrounding
`except Exception` then converts to a 500 response); when it returns
`true` the route proceeds to serve the file. -/
def containmentCheckPasses (dir filename : String) : Bool :=
  (abspathChars dir.data).isPrefixOf (safe_path dir filename)

/-- Whether the resolved path escapes the managed download directory: the
directory's normalized segments are not a prefix of the resolved path's
normalized segments. -/
def pathEscapes (dir filename : String) : Bool :=
  ¬ (normSegs (pathSegs dir.data)).isPrefixOf
      (normSegs (pathSegs (joinPath dir filename)))

/-! ## The runner as a transition system (`run_download_task`, `app.py`
lines 97-204)

One task's record, together with the background thread's control point.
Hook callbacks fire only while `ydl.download` is executing (the worker
holds the `ProgressHook` only through `ydl_opts`, built after the filename
was recorded).  The exception handlers catch anything raised inside the
`try` block, i.e. from the metadata fetch up to and including the worker
call; a `KeyError` escaping the hook surfaces there too. -/

/-- The runner thread's control point. -/
inductive Phase where
  | atStart
  | fetching
  | preparing
  | downloadPhase
  | postWorker
  | done
deriving DecidableEq, Repr

/-- A runner state: control point plus the task's record. -/
structure RState where
  phase : Phase
  task : Task
deriving DecidableEq, Repr

/-- The state right after `start_download_route` seeded the task. -/
def startState : RState := ⟨.atStart, initialTask⟩

/-- One step of the runner or of a concurrent hook callback.  The prepared
filename is `f"{base_filename}.{target_extension}"` (`app.py` line 115),
hence of the form `base ++ "." ++ ext`. -/
inductive Step : RState → RState → Prop where
  | toFetching (t : Task) :
      Step ⟨.atStart, t⟩ ⟨.fetching, { t with status := .fetching_info }⟩
  | toPreparing (t : Task) (base ext : String) :
      Step ⟨.fetching, t⟩
        ⟨.preparing, { t with filename := some (base ++ "." ++ ext)
                            , status := .preparing_download }⟩
  | toDownloading (t : Task) :
      Step ⟨.preparing, t⟩ ⟨.downloadPhase, { t with status := .downloading }⟩
  | hookEvent (t : Task) (d : HookPayload) (t2 : Task) :
      hookStep t d = .ok t2 →
      Step ⟨.downloadPhase, t⟩ ⟨.downloadPhase, t2⟩
  | workerReturns (t : Task) :
      Step ⟨.downloadPhase, t⟩ ⟨.postWorker, t⟩
  | runCheck (t : Task) (fileExists : Bool) (fn : String) :
      Step ⟨.postWorker, t⟩ ⟨.done, consistencyCheck t fileExists fn⟩
  | dlErrorAt (p : Phase) (t : Task) (err : String) :
      p = .fetching ∨ p = .preparing ∨ p = .downloadPhase →
      Step ⟨p, t⟩ ⟨.done, downloadErrorHandler t err⟩
  | excErrorAt (p : Phase) (t : Task) :
      p = .fetching ∨ p = .preparing ∨ p = .downloadPhase →
      Step ⟨p, t⟩ ⟨.done, unexpectedErrorHandler t⟩

/-- A runner state reachable from the freshly seeded task. -/
def Reachable (s : RState) : Prop :=
  Relation.ReflTransGen Step startState s

/-- The `download_url`/`status` relationship that actually holds of a task
record: a non-null URL is only ever stored alongside `finished`, and an
exception handler may later flip `finished` to `error` without clearing
the URL. -/
def UrlInv (t : Task) : Prop :=
  (t.status = .finished → t.download_url.isSome = true) ∧
  (t.download_url.isSome = true → t.status = .finished ∨ t.status = .error)

/-- Inductive invariant of the runner's transition system. -/
def Inv (s : RState) : Prop :=
  UrlInv s.task ∧
  ((s.phase = .atStart ∨ s.phase = .fetching ∨ s.phase = .preparing) →
      s.task.download_url = none) ∧
  ((s.phase = .preparing ∨ s.phase = .downloadPhase) →
      strTruthy s.task.filename = true)

/-- Checks that each `data` event of a stream output differs from the
previously emitted snapshot (`last` is the snapshot last sent before the
list). -/
def deltaOnly : Option Task → List StreamEvent → Bool
  | _, [] => true
  | last, .notFound :: es => deltaOnly last es
  | last, .data t :: es => (some t ≠ last : Bool) && deltaOnly (some t) es

/-! ## Concrete inputs used by counterexamples and witnesses -/

/-- A task that has just entered the `downloading` state. -/
def dlTask : Task := { initialTask with status := .downloading }

/-- A payload with every key absent (in particular no `'status'` key). -/
def emptyPayload : HookPayload :=
  { status := none, total_bytes := none, total_bytes_estimate := none
  , downloaded_bytes := none, speed_str := none, eta_str := none
  , total_bytes_str := none, filename := none }

/-- A `'downloading'` payload reporting 1 of 3 bytes downloaded. -/
def thirdPayload : HookPayload :=
  { emptyPayload with
    status := some "downloading"
  , total_bytes := some 3, downloaded_bytes := some 1
  , speed_str := some "1MiB/s", eta_str := some "00:01"
  , total_bytes_str := some "3B" }

/-- A `'downloading'` payload reporting 50 of 100 bytes downloaded. -/
def halfPayload : HookPayload :=
  { emptyPayload with
    status := some "downloading"
  , total_bytes := some 100, downloaded_bytes := some 50 }

/-- A `'downloading'` payload reporting 10 of 100 bytes downloaded
(yt-dlp restarts a fragment, say). -/
def tenthPayload : HookPayload :=
  { emptyPayload with
    status := some "downloading"
  , total_bytes := some 100, downloaded_bytes := some 10 }

/-- A `'finished'` payload carrying no filename. -/
def finPayload : HookPayload := { emptyPayload with status := some "finished" }

/-- A task record that has finished with its download URL set. -/
def finishedTask : Task :=
  { status := .finished
  , progress :=
      { percentage := 100, speed := "", eta := "", total_bytes := 0
      , total_bytes_string := "", downloaded_bytes := 0 }
  , filename := some "clip.mp4"
  , download_url := some "/api/files/clip.mp4"
  , error_message := none }

/-- The managed download directory (`DOWNLOAD_FOLDER`), at a concrete
absolute location. -/
def downloadDir : String := "/app/downloads"

/-- A requested filename whose resolved path escapes `downloadDir` into
the sibling directory `downloads_evil`. -/
def traversalName : String := "../downloads_evil/secret.txt"

/-- Runner state after `status = 'fetching_info'` (`app.py` line 103). -/
def c2T1 : Task := { initialTask with status := .fetching_info }

/-- Runner state after the filename was recorded (`app.py` lines
120-121). -/
def c2T2 : Task :=
  { c2T1 with
    filename := some ("clip" ++ "." ++ "mp4")
  , status := .preparing_download }

/-- Runner state after `status = 'downloading'` (`app.py` line 157). -/
def c2T3 : Task := { c2T2 with status := .downloading }

/-- The task after the hook's `'finished'` branch ran on `c2T3`. -/
def c2T4 : Task := hookRun c2T3 finPayload

/-- The final state of a run in which the worker reported `finished` and
then raised (e.g. a post-processing failure): the `DownloadError` handler
overwrote the status. -/
def c2Bad : RState := ⟨.done, downloadErrorHandler c2T4 "HTTP Error 429"⟩

/-- Stream scenario: the `pending` snapshot. -/
def sPending : Task := initialTask

/-- Stream scenario: the `fetching_info` snapshot. -/
def sFetching : Task := { initialTask with status := .fetching_info }

/-- Stream scenario: the `preparing_download` snapshot. -/
def sPreparing : Task :=
  { sFetching with
    status := .preparing_download, filename := some "clip.mp4" }

/-- Stream scenario: the `downloading` snapshot at 50%. -/
def sDl50 : Task :=
  { sPreparing with
    status := .downloading
  , progress :=
      { percentage := 50, speed := "1MiB/s", eta := "00:05", total_bytes := 1000
      , total_bytes_string := "1000", downloaded_bytes := 500 } }

/-- Stream scenario: the `downloading` snapshot at 100%. -/
def sDl100 : Task :=
  { sDl50 with progress :=
      { sDl50.progress with percentage := 100, downloaded_bytes := 1000 } }

/-- Stream scenario: the `finished` snapshot. -/
def sFinished : Task :=
  { sDl100 with
    status := .finished, download_url := some "/api/files/clip.mp4" }

/-- Stream scenario: the snapshots observed by nine polls spaced faster
than the transitions (some states observed twice). -/
def c8Polls : List (Option Task) :=
  [ some sPending, some sPending, some sFetching, some sPreparing
  , some sPreparing, some sDl50, some sDl100, some sDl100, some sFinished ]

/-- Stream scenario: the six distinct events the stream should emit. -/
def c8Events : List StreamEvent :=
  [ .data sPending, .data sFetching, .data sPreparing
  , .data sDl50, .data sDl100, .data sFinished ]

/-! ## Helper lemmas -/

/-- `a or b` is truthy when `b` is. -/
lemma strTruthy_orFalsyStr (a b : Option String) (h : strTruthy b = true) :
    strTruthy (orFalsyStr a b) = true := by
  unfold orFalsyStr
  split
  · assumption
  · exact h

/-- The prepared target filename `f"{base}.{ext}"` is never empty. -/
lemma dotted_ne_empty (base ext : String) : base ++ "." ++ ext ≠ "" := by
  intro h
  have hlen := congrArg String.length h
  simp [String.length_append] at hlen
  exact absurd hlen.1.2 (by decide)

/-- Unfolding of the hook's `'downloading'` branch on a non-terminal
task. -/
lemma hookStep_downloading (t : Task) (d : HookPayload)
    (h : t.status.isTerminal = false) (hd : d.status = some "downloading") :
    hookStep t d = .ok { t with
      status := .downloading
    , progress :=
        { percentage := round1 (payloadRawPct d)
        , speed := d.speed_str.getD "N/A"
        , eta := d.eta_str.getD "N/A"
        , total_bytes := orFalsyNat d.total_bytes (orFalsyNat d.total_bytes_estimate 0)
        , total_bytes_string := d.total_bytes_str.getD "N/A"
        , downloaded_bytes := d.downloaded_bytes.getD 0 } } := by
  unfold hookStep payloadRawPct
  rw [h, hd]
  simp

/-- Unfolding of the hook's `'finished'` branch on a non-terminal task. -/
lemma hookStep_finished (t : Task) (d : HookPayload)
    (h : t.status.isTerminal = false) (hd : d.status = some "finished") :
    hookStep t d = .ok { t with
      status := .finished
    , filename := orFalsyStr d.filename t.filename
    , download_url :=
        if strTruthy (orFalsyStr d.filename t.filename) then
          some ("/api/files/" ++ basename ((orFalsyStr d.filename t.filename).getD ""))
        else t.download_url
    , progress := { t.progress with percentage := 100 } } := by
  unfold hookStep
  rw [h, hd]
  simp

/-- `roundHalfEven` is at least the floor. -/
lemma roundHalfEven_ge (q : ℚ) : ⌊q⌋ ≤ roundHalfEven q := by
  unfold roundHalfEven
  split_ifs <;> omega

/-- `roundHalfEven` is at most the floor plus one. -/
lemma roundHalfEven_le (q : ℚ) : roundHalfEven q ≤ ⌊q⌋ + 1 := by
  unfold roundHalfEven
  split_ifs <;> omega

/-- Rounding half to even is monotone. -/
lemma roundHalfEven_mono {a b : ℚ} (h : a ≤ b) :
    roundHalfEven a ≤ roundHalfEven b := by
  rcases lt_or_eq_of_le (Int.floor_le_floor h) with hf | hf
  · calc roundHalfEven a ≤ ⌊a⌋ + 1 := roundHalfEven_le a
      _ ≤ ⌊b⌋ := by omega
      _ ≤ roundHalfEven b := roundHalfEven_ge b
  · unfold roundHalfEven
    rw [← hf]
    split_ifs <;> first | omega | linarith

/-- `round1` is monotone. -/
lemma round1_mono {a b : ℚ} (h : a ≤ b) : round1 a ≤ round1 b := by
  unfold round1
  have h10 : a * 10 ≤ b * 10 := by linarith
  have := roundHalfEven_mono h10
  have hcast : ((roundHalfEven (a * 10) : ℤ) : ℚ) ≤ ((roundHalfEven (b * 10) : ℤ) : ℚ) := by
    exact_mod_cast this
  linarith

/-! ## Claim theorems -/

/-- C4: when the worker call returns and the task is not yet terminal, the
consistency check forces `finished` (backfilling `filename`,
`download_url` and `percentage = 100`) when the expected output file
exists, forces `error` otherwise, and in either case leaves the task
terminal. -/
theorem c4_consistency_check (t : Task) (ex : Bool) (fn : String)
    (h : t.status.isTerminal = false) :
    ((consistencyCheck t ex fn).status.isTerminal = true) ∧
    (ex = true →
      (consistencyCheck t ex fn).status = .finished ∧
      (consistencyCheck t ex fn).progress.percentage = 100 ∧
      (t.filename = none → (consistencyCheck t ex fn).filename = some fn) ∧
      (t.download_url = none →
        (consistencyCheck t ex fn).download_url = some ("/api/files/" ++ basename fn))) ∧
    (ex = false →
      (consistencyCheck t ex fn).status = .error ∧
      (consistencyCheck t ex fn).error_message = some checkFailedMessage) := by
  unfold consistencyCheck
  rw [h]
  cases ex
  · refine ⟨by simp [Status.isTerminal], by simp, ?_⟩
    intro _
    simp
  · refine ⟨by simp [Status.isTerminal], ?_, by simp⟩
    intro _
    refine ⟨by simp, by simp, ?_, ?_⟩
    · intro hf
      simp [hf, strTruthy]
    · intro hu
      simp [hu, strTruthy]

/-- C4 witness: the consistency check at a concrete non-terminal task. -/
theorem c4_consistency_check_witness :
    (dlTask.status.isTerminal = false) ∧
    ((consistencyCheck dlTask true "clip.mp4").status.isTerminal = true) := by
  exact ⟨by decide, (c4_consistency_check dlTask true "clip.mp4" (by decide)).1⟩

/-- Fields of the record stored by a `'downloading'` hook invocation. -/
lemma hookRun_downloading_fields (t : Task) (d : HookPayload)
    (h : t.status.isTerminal = false) (hd : d.status = some "downloading") :
    (hookRun t d).progress.percentage = round1 (payloadRawPct d) ∧
    (hookRun t d).status = .downloading := by
  unfold hookRun
  rw [hookStep_downloading t d h hd]
  exact ⟨rfl, rfl⟩

/-- The percentage the `'downloading'` branch computes for 50 of 100
bytes. -/
lemma payloadRawPct_half : payloadRawPct halfPayload = 50 := by
  norm_num [payloadRawPct, halfPayload, emptyPayload, orFalsyNat]

/-- The percentage the `'downloading'` branch computes for 10 of 100
bytes. -/
lemma payloadRawPct_tenth : payloadRawPct tenthPayload = 10 := by
  norm_num [payloadRawPct, tenthPayload, emptyPayload, orFalsyNat]

/-- The percentage the `'downloading'` branch computes for 1 of 3
bytes. -/
lemma payloadRawPct_third : payloadRawPct thirdPayload = 100/3 := by
  norm_num [payloadRawPct, thirdPayload, emptyPayload, orFalsyNat]

/-- Rounding 50 to one decimal. -/
lemma round1_fifty : round1 50 = 50 := by
  norm_num [round1, roundHalfEven]

/-- Rounding 10 to one decimal. -/
lemma round1_ten : round1 10 = 10 := by
  norm_num [round1, roundHalfEven]

/-- Rounding 100/3 to one decimal gives 33.3. -/
lemma round1_third : round1 (100/3) = 333/10 := by
  norm_num [round1, roundHalfEven]

/-- C6 counterexample: a `'downloading'` callback reporting 1 of 3 bytes
stores percentage `33.3` (`round(percentage, 1)` at `app.py` line 67),
not `downloaded/total*100 = 100/3` as the claim states. -/
theorem c6_counterexample :
    dlTask.status = .downloading ∧
    (hookRun dlTask thirdPayload).progress.percentage = 333/10 ∧
    ((333 : ℚ)/10 ≠ (1 : ℚ)/3 * 100) := by
  refine ⟨rfl, ?_, by norm_num⟩
  have h := (hookRun_downloading_fields dlTask thirdPayload (by decide) rfl).1
  rw [h, payloadRawPct_third, round1_third]

/-- C6 (amended): a `'downloading'` callback on a non-terminal task sets
`status = 'downloading'`, sets the percentage to `downloaded/total*100`
rounded to one decimal (0 when the total is unknown or zero), and copies
the speed/eta/byte-count display fields from the payload (`'N/A'` when
absent). -/
theorem c6_downloading_update (t : Task) (d : HookPayload)
    (h : t.status.isTerminal = false) (hd : d.status = some "downloading") :
    hookRun t d = { t with
      status := .downloading
    , progress :=
        { percentage := round1 (payloadRawPct d)
        , speed := d.speed_str.getD "N/A"
        , eta := d.eta_str.getD "N/A"
        , total_bytes := orFalsyNat d.total_bytes (orFalsyNat d.total_bytes_estimate 0)
        , total_bytes_string := d.total_bytes_str.getD "N/A"
        , downloaded_bytes := d.downloaded_bytes.getD 0 } } := by
  unfold hookRun
  rw [hookStep_downloading t d h hd]

/-- C6 witness: the amended update at a concrete task and payload. -/
theorem c6_downloading_update_witness :
    dlTask.status.isTerminal = false ∧
    hookRun dlTask thirdPayload = { dlTask with
      status := .downloading
    , progress :=
        { percentage := round1 (payloadRawPct thirdPayload)
        , speed := thirdPayload.speed_str.getD "N/A"
        , eta := thirdPayload.eta_str.getD "N/A"
        , total_bytes := orFalsyNat thirdPayload.total_bytes (orFalsyNat thirdPayload.total_bytes_estimate 0)
        , total_bytes_string := thirdPayload.total_bytes_str.getD "N/A"
        , downloaded_bytes := thirdPayload.downloaded_bytes.getD 0 } } :=
  ⟨by decide, c6_downloading_update dlTask thirdPayload (by decide) rfl⟩

/-- C5 counterexample: on a live non-terminal task, a payload with no
`'status'` key makes the hook raise `KeyError` (`d['status']`, `app.py`
line 58) back into the worker. -/
theorem c5_counterexample :
    dlTask.status.isTerminal = false ∧
    hookCall (some dlTask) emptyPayload = .error () :=
  ⟨by decide, rfl⟩

/-- C5 (amended): for every payload that does contain the `'status'` key
(byte-count and display keys may be absent), a hook invocation never
raises; a payload missing `'status'` raises `KeyError` on a live
non-terminal task. -/
theorem c5_no_raise_with_status (store : Option Task) (d : HookPayload) (s : String)
    (h : d.status = some s) : ∃ r, hookCall store d = .ok r := by
  cases store with
  | none => exact ⟨none, rfl⟩
  | some t =>
    have hok : ∃ t2, hookStep t d = .ok t2 := by
      unfold hookStep
      rw [h]
      dsimp only
      split_ifs <;> exact ⟨_, rfl⟩
    obtain ⟨t2, ht⟩ := hok
    refine ⟨some t2, ?_⟩
    show (hookStep t d).map some = .ok (some t2)
    rw [ht]
    rfl

/-- C5 witness: a concrete `'downloading'` payload does not raise. -/
theorem c5_no_raise_witness : ∃ r, hookCall (some dlTask) halfPayload = .ok r :=
  c5_no_raise_with_status (some dlTask) halfPayload "downloading" rfl

/-- C10: for a `'finished'` callback on a non-terminal task: a payload
with no filename preserves the previously recorded one; whenever a
filename is known the URL becomes `/api/files/` plus its basename; with
no filename from either source the URL is left untouched while the status
still becomes `finished`. -/
theorem c10_finished_callback (t : Task) (d : HookPayload)
    (h : t.status.isTerminal = false) (hd : d.status = some "finished") :
    (hookRun t d).status = .finished ∧
    (d.filename = none → (hookRun t d).filename = t.filename) ∧
    (∀ f : String, orFalsyStr d.filename t.filename = some f → f ≠ "" →
        (hookRun t d).download_url = some ("/api/files/" ++ basename f)) ∧
    (d.filename = none → t.filename = none →
        (hookRun t d).download_url = t.download_url) := by
  unfold hookRun
  rw [hookStep_finished t d h hd]
  refine ⟨rfl, ?_, ?_, ?_⟩
  · intro hf
    simp [orFalsyStr, hf, strTruthy]
  · intro f hf hne
    simp only [hf]
    simp [strTruthy, hne]
  · intro hdf htf
    simp [orFalsyStr, hdf, htf, strTruthy]

/-- C10 witness: a filename-less `'finished'` payload on a task that
already recorded `clip.mp4`. -/
theorem c10_finished_callback_witness :
    (hookRun c2T3 finPayload).status = .finished ∧
    (hookRun c2T3 finPayload).download_url = some ("/api/files/" ++ basename "clip.mp4") := by
  have h := c10_finished_callback c2T3 finPayload (by decide) rfl
  exact ⟨h.1, h.2.2.1 "clip.mp4" rfl (by decide)⟩

/-- C7: a submit request with an absent body, or with either field
missing or empty, gets HTTP 400 with `success = false` and an error
message while the store is unchanged; with both fields present
(non-empty) a task is created and `success = true` with the task id is
returned. -/
theorem c7_submit_validation (body : Option SubmitBody) (fresh_id : String) (store : TaskStore) :
    (body = none →
      (start_download_route body fresh_id store).1.code = 400 ∧
      (start_download_route body fresh_id store).1.success = false ∧
      (start_download_route body fresh_id store).1.error.isSome = true ∧
      (start_download_route body fresh_id store).2 = store) ∧
    (∀ b : SubmitBody, body = some b →
      (strTruthy b.video_url = false ∨ strTruthy b.format = false) →
      (start_download_route body fresh_id store).1.code = 400 ∧
      (start_download_route body fresh_id store).1.success = false ∧
      (start_download_route body fresh_id store).1.error.isSome = true ∧
      (start_download_route body fresh_id store).2 = store) ∧
    (∀ b : SubmitBody, body = some b →
      strTruthy b.video_url = true → strTruthy b.format = true →
      (start_download_route body fresh_id store).1.code = 200 ∧
      (start_download_route body fresh_id store).1.success = true ∧
      (start_download_route body fresh_id store).1.task_id = some fresh_id ∧
      (start_download_route body fresh_id store).2 = (fresh_id, initialTask) :: store) := by
  refine ⟨?_, ?_, ?_⟩
  · intro hb
    subst hb
    exact ⟨rfl, rfl, rfl, rfl⟩
  · intro b hb hv
    subst hb
    unfold start_download_route
    rcases hv with h | h <;> simp [h]
  · intro b hb h1 h2
    subst hb
    simp [start_download_route, h1, h2]

/-- C7 witness: an empty `video_url` is rejected with the store
unchanged, and a fully-filled body creates the task. -/
theorem c7_submit_validation_witness :
    ((start_download_route (some ⟨some "", some "mp4"⟩) "id0" []).1.code = 400 ∧
     (start_download_route (some ⟨some "", some "mp4"⟩) "id0" []).2 = ([] : TaskStore)) ∧
    ((start_download_route (some ⟨some "https://v", some "mp4"⟩) "id0" []).1.code = 200 ∧
     (start_download_route (some ⟨some "https://v", some "mp4"⟩) "id0" []).2 =
       [("id0", initialTask)]) := by
  constructor
  · have h := (c7_submit_validation (some ⟨some "", some "mp4"⟩) "id0" []).2.1
      ⟨some "", some "mp4"⟩ rfl (Or.inl (by decide))
    exact ⟨h.1, h.2.2.2⟩
  · have h := (c7_submit_validation (some ⟨some "https://v", some "mp4"⟩) "id0" []).2.2
      ⟨some "https://v", some "mp4"⟩ rfl (by decide) (by decide)
    exact ⟨h.1, h.2.2.2⟩

/-- C1 counterexample: the `DownloadError` handler (`app.py` lines
183-195) overwrites a task that is already `finished`: it has no
terminal-state guard, so the record changes after reaching a terminal
status. -/
theorem c1_counterexample :
    finishedTask.status = .finished ∧
    downloadErrorHandler finishedTask "boom" ≠ finishedTask ∧
    (downloadErrorHandler finishedTask "boom").status = .error := by
  refine ⟨rfl, ?_, rfl⟩
  intro hcontra
  exact Status.noConfusion
    (show Status.error = Status.finished from congrArg Task.status hcontra)

/-- C1 (amended): once a task is `finished` or `error`, no progress
callback and no post-worker consistency check changes any field; the
runner's exception handlers are the exception — they overwrite the status
to `error` regardless. -/
theorem c1_terminal_frozen (t : Task) (d : HookPayload) (ex : Bool) (fn : String)
    (h : t.status.isTerminal = true) :
    hookStep t d = .ok t ∧ consistencyCheck t ex fn = t := by
  unfold hookStep consistencyCheck
  rw [h]
  exact ⟨rfl, rfl⟩

/-- C1 witness: a stray payload and a consistency check on a concrete
finished task leave it untouched. -/
theorem c1_terminal_frozen_witness :
    hookStep finishedTask halfPayload = .ok finishedTask ∧
    consistencyCheck finishedTask false "x.mp4" = finishedTask :=
  c1_terminal_frozen finishedTask halfPayload false "x.mp4" (by decide)

/-- C9 counterexample: two `'downloading'` callbacks whose payloads
report a smaller ratio the second time make the stored percentage drop
from 50 to 10 while the status stays `downloading`. -/
theorem c9_counterexample :
    dlTask.status = .downloading ∧
    (hookRun dlTask halfPayload).status = .downloading ∧
    (hookRun dlTask halfPayload).progress.percentage = 50 ∧
    (hookRun (hookRun dlTask halfPayload) tenthPayload).progress.percentage = 10 ∧
    ((10 : ℚ) < 50) := by
  obtain ⟨p1, s1⟩ := hookRun_downloading_fields dlTask halfPayload (by decide) rfl
  have hterm2 : (hookRun dlTask halfPayload).status.isTerminal = false := by
    rw [s1]
    rfl
  obtain ⟨p2, s2⟩ := hookRun_downloading_fields (hookRun dlTask halfPayload) tenthPayload hterm2 rfl
  refine ⟨rfl, s1, ?_, ?_, by norm_num⟩
  · rw [p1, payloadRawPct_half, round1_fifty]
  · rw [p2, payloadRawPct_tenth, round1_ten]

/-- C9 (amended): the stored percentage after each `'downloading'`
callback is a monotone function of that payload's `downloaded/total`
ratio alone, so across a sequence of callbacks it is non-decreasing
whenever the payloads' computed percentages are non-decreasing. -/
theorem c9_percentage_monotone (t : Task) (d1 d2 : HookPayload)
    (h : t.status.isTerminal = false)
    (h1 : d1.status = some "downloading") (h2 : d2.status = some "downloading")
    (hmono : payloadRawPct d1 ≤ payloadRawPct d2) :
    (hookRun t d1).progress.percentage ≤
      (hookRun (hookRun t d1) d2).progress.percentage := by
  obtain ⟨p1, s1⟩ := hookRun_downloading_fields t d1 h h1
  have hterm2 : (hookRun t d1).status.isTerminal = false := by rw [s1]; rfl
  obtain ⟨p2, s2⟩ := hookRun_downloading_fields (hookRun t d1) d2 hterm2 h2
  rw [p1, p2]
  exact round1_mono hmono

/-- C9 witness: two callbacks with growing ratios at a concrete task. -/
theorem c9_percentage_monotone_witness :
    (hookRun dlTask tenthPayload).progress.percentage ≤
      (hookRun (hookRun dlTask tenthPayload) halfPayload).progress.percentage :=
  c9_percentage_monotone dlTask tenthPayload halfPayload (by decide) rfl rfl
    (by rw [payloadRawPct_tenth, payloadRawPct_half]; norm_num)

/-- C3 (code_bug): the containment check of `get_file` (`app.py` line
289) compares path strings with `startswith` and no trailing separator,
so a filename whose resolved path escapes into the sibling directory
`downloads_evil` passes the check and the route proceeds to serve it
instead of rejecting it as not-found. -/
theorem c3_containment_check_bypass :
    containmentCheckPasses downloadDir traversalName = true ∧
    pathEscapes downloadDir traversalName = true ∧
    safe_path downloadDir traversalName = "/app/downloads_evil/secret.txt".data := by
  refine ⟨by decide, by decide, by decide⟩

/-- Every event the generator emits differs from the snapshot last sent
before it. -/
lemma deltaOnly_event_stream (polls : List (Option Task)) (last : Option Task) :
    deltaOnly last (event_stream polls last) = true := by
  induction polls generalizing last with
  | nil => rfl
  | cons p rest ih =>
    cases p with
    | none => rfl
    | some t =>
      unfold event_stream
      by_cases hl : last = some t
      · rw [if_pos hl]
        by_cases ht : t.status.isTerminal = true
        · rw [if_pos ht]
          rfl
        · rw [if_neg ht]
          exact ih last
      · rw [if_neg hl]
        show (decide (some t ≠ last) && deltaOnly (some t)
          (if t.status.isTerminal = true then [] else event_stream rest (some t))) = true
        rw [Bool.and_eq_true]
        refine ⟨decide_eq_true (Ne.symm hl), ?_⟩
        by_cases ht : t.status.isTerminal = true
        · rw [if_pos ht]
          rfl
        · rw [if_neg ht]
          exact ih (some t)

/-- A poll that sees a terminal snapshot ends the stream at once,
emitting the snapshot unless it was the one last sent. -/
lemma event_stream_terminal (t : Task) (rest : List (Option Task)) (last : Option Task)
    (h : t.status.isTerminal = true) :
    event_stream (some t :: rest) last = if last = some t then [] else [.data t] := by
  unfold event_stream
  by_cases hl : last = some t <;> simp [hl, h]

/-- C8: the progress stream emits a snapshot only when it differs from
the last emitted one, stops right after a terminal snapshot, emits
exactly one not-found event when the task id is absent, and on the
six-state scenario (polled faster than the transitions) emits exactly the
six distinct events in order and closes. -/
theorem c8_stream_protocol :
    (∀ (polls : List (Option Task)) (last : Option Task),
        deltaOnly last (event_stream polls last) = true) ∧
    (∀ (rest : List (Option Task)) (last : Option Task),
        event_stream (none :: rest) last = [.notFound]) ∧
    (∀ (t : Task) (rest : List (Option Task)) (last : Option Task),
        t.status.isTerminal = true →
        event_stream (some t :: rest) last = if last = some t then [] else [.data t]) ∧
    event_stream c8Polls none = c8Events ∧ c8Events.Nodup := by
  refine ⟨deltaOnly_event_stream, fun rest last => rfl, event_stream_terminal, by decide, by decide⟩

/-- C8 witness: one poll of a finished task emits it and closes. -/
theorem c8_stream_protocol_witness :
    sFinished.status.isTerminal = true ∧
    event_stream [some sFinished] none = [.data sFinished] := by
  have h := c8_stream_protocol.2.2.1 sFinished [] none (by decide)
  refine ⟨by decide, ?_⟩
  rw [h]
  rfl

/-- A non-terminal task with `UrlInv` has a null `download_url`. -/
lemma nonterminal_url_none (t : Task) (h1 : UrlInv t)
    (ht : ¬ t.status.isTerminal = true) : t.download_url = none := by
  cases hu : t.download_url with
  | none => rfl
  | some u =>
    rcases h1.2 (by rw [hu]; rfl) with hf | hf <;>
      exact absurd (by rw [hf]; rfl) ht

/-- A hook invocation that stored a record preserves `UrlInv` and a
truthy filename. -/
lemma hookStep_preserves_inv (t : Task) (d : HookPayload) (t2 : Task)
    (hstep : hookStep t d = .ok t2) (h1 : UrlInv t)
    (h3 : strTruthy t.filename = true) :
    UrlInv t2 ∧ strTruthy t2.filename = true := by
  by_cases ht : t.status.isTerminal = true
  · unfold hookStep at hstep
    rw [if_pos ht] at hstep
    injection hstep with h
    subst h
    exact ⟨h1, h3⟩
  · have hurl : t.download_url = none := nonterminal_url_none t h1 ht
    unfold hookStep at hstep
    rw [if_neg ht] at hstep
    cases hd : d.status with
    | none =>
      rw [hd] at hstep
      exact absurd hstep (by simp)
    | some s =>
      rw [hd] at hstep
      dsimp only at hstep
      by_cases hs1 : s = "downloading"
      · rw [if_pos hs1] at hstep
        injection hstep with h
        subst h
        refine ⟨⟨fun hf => Status.noConfusion hf, fun hu => ?_⟩, h3⟩
        have hu2 : t.download_url.isSome = true := hu
        rw [hurl] at hu2
        exact absurd hu2 (by simp)
      · by_cases hs2 : s = "finished"
        · rw [if_neg hs1, if_pos hs2] at hstep
          injection hstep with h
          subst h
          have hfin : strTruthy (orFalsyStr d.filename t.filename) = true :=
            strTruthy_orFalsyStr _ _ h3
          refine ⟨⟨fun _ => ?_, fun _ => Or.inl rfl⟩, hfin⟩
          show (if strTruthy (orFalsyStr d.filename t.filename) then
            some ("/api/files/" ++ basename ((orFalsyStr d.filename t.filename).getD ""))
            else t.download_url).isSome = true
          rw [hfin]
          rfl
        · by_cases hs3 : s = "error"
          · rw [if_neg hs1, if_neg hs2, if_pos hs3] at hstep
            injection hstep with h
            subst h
            refine ⟨⟨fun hf => Status.noConfusion hf, fun hu => ?_⟩, h3⟩
            have hu2 : t.download_url.isSome = true := hu
            rw [hurl] at hu2
            exact absurd hu2 (by simp)
          · rw [if_neg hs1, if_neg hs2, if_neg hs3] at hstep
            injection hstep with h
            subst h
            exact ⟨h1, h3⟩

/-- The post-worker consistency check preserves `UrlInv`. -/
lemma consistencyCheck_urlInv (t : Task) (ex : Bool) (fn : String)
    (h1 : UrlInv t) : UrlInv (consistencyCheck t ex fn) := by
  by_cases ht : t.status.isTerminal = true
  · unfold consistencyCheck
    rw [if_pos ht]
    exact h1
  · have hurl : t.download_url = none := nonterminal_url_none t h1 ht
    unfold consistencyCheck
    rw [if_neg ht]
    cases ex with
    | false =>
      refine ⟨fun hf => Status.noConfusion hf, fun hu => ?_⟩
      have hu2 : t.download_url.isSome = true := hu
      rw [hurl] at hu2
      exact absurd hu2 (by simp)
    | true =>
      refine ⟨fun _ => ?_, fun _ => Or.inl rfl⟩
      show (if strTruthy t.download_url then t.download_url else
        some ("/api/files/" ++ basename fn)).isSome = true
      rw [hurl]
      rfl

/-- The seeded state satisfies the invariant. -/
lemma startState_inv : Inv startState := by
  refine ⟨⟨fun hf => Status.noConfusion hf, fun hu => ?_⟩, fun _ => rfl, fun hp => ?_⟩
  · exact absurd hu (by simp [startState, initialTask])
  · rcases hp with h | h <;> exact Phase.noConfusion h

/-- Every step of the runner preserves the invariant. -/
lemma step_preserves_inv {s1 s2 : RState} (hstep : Step s1 s2) (hinv : Inv s1) :
    Inv s2 := by
  obtain ⟨hu, hearly, hfile⟩ := hinv
  cases hstep with
  | toFetching t =>
    have hn : t.download_url = none := hearly (Or.inl rfl)
    refine ⟨⟨fun hf => Status.noConfusion hf, fun hs => ?_⟩, fun _ => hn, fun hp => ?_⟩
    · have hs2 : t.download_url.isSome = true := hs
      rw [hn] at hs2
      exact absurd hs2 (by simp)
    · rcases hp with h | h <;> exact Phase.noConfusion h
  | toPreparing t base ext =>
    have hn : t.download_url = none := hearly (Or.inr (Or.inl rfl))
    refine ⟨⟨fun hf => Status.noConfusion hf, fun hs => ?_⟩, fun _ => hn, fun _ => ?_⟩
    · have hs2 : t.download_url.isSome = true := hs
      rw [hn] at hs2
      exact absurd hs2 (by simp)
    · show strTruthy (some (base ++ "." ++ ext)) = true
      simp [strTruthy]
      exact dotted_ne_empty base ext
  | toDownloading t =>
    have hn : t.download_url = none := hearly (Or.inr (Or.inr rfl))
    have hf : strTruthy t.filename = true := hfile (Or.inl rfl)
    refine ⟨⟨fun h => Status.noConfusion h, fun hs => ?_⟩, fun hp => ?_, fun _ => hf⟩
    · have hs2 : t.download_url.isSome = true := hs
      rw [hn] at hs2
      exact absurd hs2 (by simp)
    · rcases hp with h | h | h <;> exact Phase.noConfusion h
  | hookEvent t d t2 hs =>
    have h2 := hookStep_preserves_inv t d t2 hs hu (hfile (Or.inr rfl))
    refine ⟨h2.1, fun hp => ?_, fun _ => h2.2⟩
    rcases hp with h | h | h <;> exact Phase.noConfusion h
  | workerReturns t =>
    refine ⟨hu, fun hp => ?_, fun hp => ?_⟩
    · rcases hp with h | h | h <;> exact Phase.noConfusion h
    · rcases hp with h | h <;> exact Phase.noConfusion h
  | runCheck t fileExists fn =>
    refine ⟨consistencyCheck_urlInv t fileExists fn hu, fun hp => ?_, fun hp => ?_⟩
    · rcases hp with h | h | h <;> exact Phase.noConfusion h
    · rcases hp with h | h <;> exact Phase.noConfusion h
  | dlErrorAt p t err hpin =>
    refine ⟨⟨fun hf => Status.noConfusion hf, fun _ => Or.inr rfl⟩, fun hp => ?_, fun hp => ?_⟩
    · rcases hp with h | h | h <;> exact Phase.noConfusion h
    · rcases hp with h | h <;> exact Phase.noConfusion h
  | excErrorAt p t hpin =>
    refine ⟨⟨fun hf => Status.noConfusion hf, fun _ => Or.inr rfl⟩, fun hp => ?_, fun hp => ?_⟩
    · rcases hp with h | h | h <;> exact Phase.noConfusion h
    · rcases hp with h | h <;> exact Phase.noConfusion h

/-- Every reachable runner state satisfies the invariant. -/
lemma reachable_inv (s : RState) (h : Reachable s) : Inv s := by
  unfold Reachable at h
  induction h with
  | refl => exact startState_inv
  | tail _ hstep ih => exact step_preserves_inv hstep ih

/-- C2 counterexample: a reachable state (worker reports `finished`, then
raises during post-processing, so the `DownloadError` handler overwrites
the status) whose `download_url` is non-null while `status = 'error'`:
the claimed "iff" fails on the code. -/
theorem c2_counterexample :
    Reachable c2Bad ∧ c2Bad.task.status = .error ∧
    c2Bad.task.download_url = some "/api/files/clip.mp4" := by
  refine ⟨?_, rfl, by decide⟩
  have s1 : Step startState ⟨.fetching, c2T1⟩ := Step.toFetching initialTask
  have s2 : Step ⟨.fetching, c2T1⟩ ⟨.preparing, c2T2⟩ :=
    Step.toPreparing c2T1 "clip" "mp4"
  have s3 : Step ⟨.preparing, c2T2⟩ ⟨.downloadPhase, c2T3⟩ := Step.toDownloading c2T2
  have s4 : Step ⟨.downloadPhase, c2T3⟩ ⟨.downloadPhase, c2T4⟩ :=
    Step.hookEvent c2T3 finPayload c2T4 rfl
  have s5 : Step ⟨.downloadPhase, c2T4⟩ c2Bad :=
    Step.dlErrorAt .downloadPhase c2T4 "HTTP Error 429" (Or.inr (Or.inr rfl))
  exact Relation.ReflTransGen.tail
    (Relation.ReflTransGen.tail
      (Relation.ReflTransGen.tail
        (Relation.ReflTransGen.tail
          (Relation.ReflTransGen.tail Relation.ReflTransGen.refl s1) s2) s3) s4) s5

/-- C2 (amended): in every reachable state, `status = finished` implies a
non-null `download_url`, and a non-null `download_url` implies the status
is `finished` or `error` (the `error` case arises only when an exception
handler overwrote an already-finished task). -/
theorem c2_download_url_iff_amended (s : RState) (h : Reachable s) :
    (s.task.status = .finished → s.task.download_url ≠ none) ∧
    (s.task.download_url ≠ none →
      s.task.status = .finished ∨ s.task.status = .error) := by
  obtain ⟨⟨h1, h2⟩, -, -⟩ := reachable_inv s h
  constructor
  · intro hf hn
    have h3 := h1 hf
    rw [hn] at h3
    exact absurd h3 (by simp)
  · intro hne
    apply h2
    cases hu : s.task.download_url with
    | none => exact absurd hu hne
    | some u => rfl

/-- C2 witness: the amended property at the freshly seeded state. -/
theorem c2_download_url_iff_witness :
    (startState.task.status = .finished → startState.task.download_url ≠ none) ∧
    (startState.task.download_url ≠ none →
      startState.task.status = .finished ∨ startState.task.status = .error) :=
  c2_download_url_iff_amended startState Relation.ReflTransGen.refl

end Moro
